import Mathlib

/-!
Verification of the mbutil tile-store library (src/mbutil/database.py and
src/mbutil/util_convert.py) against its natural-language specification.

The development shallowly embeds the relevant parts of the source:

* the coordinate converter of `util_convert.py` (whose helpers
  `tile_to_coordinate`, `coordinate_to_tile` and `flip_y` live in the
  repository file `util.py`, which is not shipped under `src/`; those three
  are modelled from the spec, see their doc comments);
* the SQLite / Postgres / MySQL relational state (tables `map` and `images`)
  and the operations `tiles`, `tiles_count`, `updates`, `delete_tiles`,
  `expire_tile`, `max_timestamp`;
* the schema-creation functions `mbtiles_setup` as transformers of a
  schema-object state;
* the connection factory `database_connect`;
* the MongoDB backend's query operations and its unsupported operations.

Python exceptions are embedded with `Except PyErr`; `sys.exit(1)` is embedded
as `Option.none`; machine integers are `Int` (Python ints are unbounded).
-/

/-- Python exception outcomes used by the embedded code.  `raiseStr msg`
models the Python-2 statement `raise("msg")`, which raises the bare string
(a `TypeError` on Python ≥ 2.6) and in particular is not
`NotImplementedError`. -/
inductive PyErr where
  | typeError
  | nameError
  | raiseStr (msg : String)
  | notImplementedError
  deriving DecidableEq, Repr

/-! ## Coordinate converter (`util_convert.py`, helpers from `util.py`) -/

/-- Python `int()` applied to a rational: truncation toward zero. -/
def pyInt (q : ℚ) : ℤ := if 0 ≤ q then ⌊q⌋ else ⌈q⌉

/-- Modelled from the spec: `util.flip_y` (file `util.py` is not under
`src/`).  Spec §4.1: "the row index is first flipped using
`flipped_row = 2^z - 1 - row`". -/
def flip_y (zoom : ℕ) (tile_y : ℤ) : ℤ := 2 ^ zoom - 1 - tile_y

/-- Modelled from the spec: `util.tile_to_coordinate` (file `util.py` is not
under `src/`).  Spec §4.1: a standard slippy-map projection, longitude linear
in x, latitude via the inverse Mercator in y, consistent with
`coordinate_to_tile` so that tile → bbox → tiles recovers the tile, and such
that tile (0,0,0) maps to the full-world envelope.  The fractional tile index
refers to the tile centre (index x spans longitudes of tiles x∓1/2).
Latitude is represented by its Mercator parameter m ∈ [-1, 1]; the true
latitude in degrees is `arctan (sinh (π * m)) * 180 / π` (see
`latOfMercDeg`), a strictly monotone reparametrisation that the enumeration
logic never inspects. -/
def tile_to_coordinate (tile_x tile_y : ℚ) (zoom : ℕ) : ℚ × ℚ :=
  ((tile_x + 1 / 2) / 2 ^ zoom * 360 - 180, 1 - 2 * (tile_y + 1 / 2) / 2 ^ zoom)

/-- Modelled from the spec: `util.coordinate_to_tile` (file `util.py` is not
under `src/`), the inverse of `tile_to_coordinate` followed by Python `int`
truncation, in the same centre convention and Mercator-parameter latitude
representation. -/
def coordinate_to_tile (longitude latitude : ℚ) (zoom : ℕ) : ℤ × ℤ :=
  (pyInt ((longitude + 180) / 360 * 2 ^ zoom - 1 / 2),
   pyInt ((1 - latitude) / 2 * 2 ^ zoom - 1 / 2))

/-- The latitude in degrees of a Mercator parameter `m`:
`arctan (sinh (π m)) · 180 / π`. -/
noncomputable def latOfMercDeg (m : ℝ) : ℝ :=
  Real.arctan (Real.sinh (Real.pi * m)) * 180 / Real.pi

/-- `util_convert.convert_tile_to_bbox`: bounding box `[min_x, min_y, max_x,
max_y]` of one tile, optionally flipping the row first. -/
def convert_tile_to_bbox (tile_z : ℕ) (tile_x tile_y : ℤ) (flip_tile_y : Bool) :
    ℚ × ℚ × ℚ × ℚ :=
  let ty : ℤ := if flip_tile_y then flip_y tile_z tile_y else tile_y
  let mn := tile_to_coordinate ((tile_x : ℚ) - 1 / 2) ((ty : ℚ) + 1 / 2) tile_z
  let mx := tile_to_coordinate ((tile_x : ℚ) + 1 / 2) ((ty : ℚ) - 1 / 2) tile_z
  (mn.1, mn.2, mx.1, mx.2)

/-- Python `range(lo, hi+1)` over integers, as a list. -/
def intRange (lo hi : ℤ) : List ℤ :=
  (List.range (hi + 1 - lo).toNat).map (fun i => lo + (i : ℤ))

/-- `util_convert.tiles_for_bbox`: all tiles of one zoom level covering a
bounding box, swapping the row bounds when the projection inverted them and
flipping each produced row if requested. -/
def tiles_for_bbox (left bottom right top : ℚ) (tile_z : ℕ) (flip_tile_y : Bool) :
    List (ℕ × ℤ × ℤ) :=
  let mn := coordinate_to_tile left bottom tile_z
  let mx := coordinate_to_tile right top tile_z
  let min_y := if mn.2 > mx.2 then mx.2 else mn.2
  let max_y := if mn.2 > mx.2 then mn.2 else mx.2
  (intRange mn.1 mx.1).flatMap fun tile_x =>
    (intRange min_y max_y).map fun tile_y =>
      (tile_z, tile_x, if flip_tile_y then flip_y tile_z tile_y else tile_y)

/-- `util_convert.convert_bbox_to_tiles`: tiles covering a bounding box for
every zoom level in `[min_zoom, max_zoom]`. -/
def convert_bbox_to_tiles (left bottom right top : ℚ) (flip_tile_y : Bool)
    (min_zoom max_zoom : ℕ) : List (ℕ × ℤ × ℤ) :=
  ((List.range (max_zoom + 1 - min_zoom)).map (fun i => min_zoom + i)).flatMap fun tile_z =>
    tiles_for_bbox left bottom right top tile_z flip_tile_y

/-! ## Relational store state (schema of `mbtiles_setup`: tables `map` and
`images`)

The row types mirror the columns created by `MBTilesSQLite.mbtiles_setup`
(and identically by the Postgres/MySQL setup): `map(zoom_level, tile_column,
tile_row, tile_scale, tile_id, updated_at)` and `images(tile_id, tile_data)`.
The model represents a compacted store (both tables present, so
`is_compacted()` probes to true) with the `tile_scale` column present (so
`has_scale()` probes to true); rows written by this code always carry an
`updated_at` value, so `updated_at` is total.  Tile payloads are opaque
blobs, embedded as `String`. -/

structure MapRow where
  zoom_level : ℤ
  tile_column : ℤ
  tile_row : ℤ
  tile_scale : ℤ
  tile_id : Option String
  updated_at : ℤ
  deriving DecidableEq, Repr

structure ImageRow where
  tile_id : String
  tile_data : String
  deriving DecidableEq, Repr

structure SQLiteDB where
  map : List MapRow
  images : List ImageRow
  deriving DecidableEq, Repr

/-- One row of the `tiles` view created by `mbtiles_setup`:
`SELECT map.zoom_level, map.tile_column, map.tile_row, map.tile_scale,
images.tile_data, map.updated_at FROM map JOIN images ON map.tile_id IS NOT
NULL AND images.tile_id = map.tile_id`. -/
structure TileViewRow where
  zoom_level : ℤ
  tile_column : ℤ
  tile_row : ℤ
  tile_scale : ℤ
  tile_data : String
  updated_at : ℤ
  deriving DecidableEq, Repr

/-- The `tiles` view: join of `map` and `images` on a non-null matching
`tile_id`. -/
def tilesView (db : SQLiteDB) : List TileViewRow :=
  db.map.flatMap fun r =>
    (db.images.filter fun i => r.tile_id == some i.tile_id).map fun i =>
      ⟨r.zoom_level, r.tile_column, r.tile_row, r.tile_scale, i.tile_data, r.updated_at⟩

/-- The `WHERE` clause fragment `tile_scale=%d`, appended by the methods only
when `self.has_scale() and scale is not None` (`has_scale` is true in this
model). -/
def scaleTest (scale : Option ℤ) (tile_scale : ℤ) : Bool :=
  match scale with
  | none => true
  | some s => tile_scale == s

namespace MBTilesSQLite

/-- `MBTilesSQLite.tiles`: selects from the `tiles` view; the zoom bounds are
appended only when `min_zoom > 0` / `max_zoom < 18`, the timestamp bounds
(strict, as in the SQL) only when positive (the store is compacted), and the
scale equality only when a scale is given.  Output rows are
`(zoom_level, tile_column, tile_row, tile_scale, tile_data)`. -/
def tiles (min_zoom max_zoom min_timestamp max_timestamp : ℤ) (scale : Option ℤ)
    (db : SQLiteDB) : List (ℤ × ℤ × ℤ × ℤ × String) :=
  ((tilesView db).filter fun v =>
      (if 0 < min_zoom then decide (min_zoom ≤ v.zoom_level) else true) &&
      (if max_zoom < 18 then decide (v.zoom_level ≤ max_zoom) else true) &&
      scaleTest scale v.tile_scale &&
      (if 0 < min_timestamp then decide (min_timestamp < v.updated_at) else true) &&
      (if 0 < max_timestamp then decide (v.updated_at < max_timestamp) else true)).map
    fun v => (v.zoom_level, v.tile_column, v.tile_row, v.tile_scale, v.tile_data)

/-- `MBTilesSQLite.tiles_count`: `SELECT count(zoom_level) FROM map WHERE
[optional filters] tile_id IS NOT NULL` (the `tile_id IS NOT NULL` clause is
always present on a compacted store). -/
def tiles_count (min_zoom max_zoom min_timestamp max_timestamp : ℤ) (scale : Option ℤ)
    (db : SQLiteDB) : ℕ :=
  (db.map.filter fun r =>
      (if 0 < min_zoom then decide (min_zoom ≤ r.zoom_level) else true) &&
      (if max_zoom < 18 then decide (r.zoom_level ≤ max_zoom) else true) &&
      scaleTest scale r.tile_scale &&
      (if 0 < min_timestamp then decide (min_timestamp < r.updated_at) else true) &&
      (if 0 < max_timestamp then decide (r.updated_at < max_timestamp) else true) &&
      r.tile_id != none).length

end MBTilesSQLite

/-- One output row of `updates`: coordinates, scale, then content and
content id, both NULL for expired coordinates. -/
structure UpdateRow where
  zoom_level : ℤ
  tile_column : ℤ
  tile_row : ℤ
  tile_scale : ℤ
  tile_data : Option String
  tile_id : Option String
  deriving DecidableEq, Repr

namespace MBTilesSQLite

/-- The shared `WHERE` window of `MBTilesSQLite.updates` /
`updates_count`: `zoom_level>=? AND zoom_level<=? AND updated_at>? AND
updated_at<?`, all four bounds unconditional (parameterised query). -/
def updatesWindow (min_zoom max_zoom min_timestamp max_timestamp : ℤ) (r : MapRow) : Bool :=
  decide (min_zoom ≤ r.zoom_level) && decide (r.zoom_level ≤ max_zoom) &&
  decide (min_timestamp < r.updated_at) && decide (r.updated_at < max_timestamp)

/-- `MBTilesSQLite.updates`: the changelog query — present tiles (joined with
`images`) in the window, `UNION` expired coordinates (`tile_id IS NULL`) in
the window carrying NULL content and NULL content id (`UNION` removes
duplicates, embedded as `List.dedup`). -/
def updates (min_zoom max_zoom min_timestamp max_timestamp : ℤ) (db : SQLiteDB) :
    List UpdateRow :=
  (((db.map.filter (updatesWindow min_zoom max_zoom min_timestamp max_timestamp)).flatMap
      fun r =>
        (db.images.filter fun i => r.tile_id == some i.tile_id).map fun i =>
          UpdateRow.mk r.zoom_level r.tile_column r.tile_row r.tile_scale
            (some i.tile_data) (some i.tile_id)) ++
   ((db.map.filter fun r =>
        updatesWindow min_zoom max_zoom min_timestamp max_timestamp r &&
        r.tile_id == none).map
      fun r => UpdateRow.mk r.zoom_level r.tile_column r.tile_row r.tile_scale
                 none none)).dedup

/-- `MBTilesSQLite.updates_count`: `SELECT count(zoom_level) FROM map` over
the same window. -/
def updates_count (min_zoom max_zoom min_timestamp max_timestamp : ℤ) (db : SQLiteDB) : ℕ :=
  (db.map.filter (updatesWindow min_zoom max_zoom min_timestamp max_timestamp)).length

/-- `MBTilesSQLite.max_timestamp`: `SELECT max(updated_at) FROM map`.  On an
empty `map` SQL `max` is NULL, `fetchone()[0]` is `None` and the function
returns it (no exception is raised, so the `except: return 0` branch is not
taken); embedded as `Option ℤ` with `none` for NULL. -/
def max_timestamp (db : SQLiteDB) : Option ℤ :=
  match db.map.map (fun r => r.updated_at) with
  | [] => none
  | t :: rest => some (rest.foldl max t)

/-- The `WHERE` clause of `MBTilesSQLite.delete_tiles` (compacted branch),
shared by the image-selection subquery and the `DELETE FROM map` statement:
zoom bounds unconditionally, scale when given, `updated_at>min` when
`min_timestamp > 0` (the `max_timestamp` clause is never reached, see
`delete_tiles`). -/
def deleteTest (min_zoom max_zoom min_timestamp : ℤ) (scale : Option ℤ) (r : MapRow) : Bool :=
  decide (min_zoom ≤ r.zoom_level) && decide (r.zoom_level ≤ max_zoom) &&
  scaleTest scale r.tile_scale &&
  (if 0 < min_timestamp then decide (min_timestamp < r.updated_at) else true)

/-- `MBTilesSQLite.delete_tiles`, compacted branch.  When `max_timestamp > 0`
the line `sql_images += " AND updated_at<%d " (max_timestamp,)` applies a
string to a tuple (the `%` formatting operator is missing) and raises
`TypeError` before either `DELETE` is executed.  Otherwise it first deletes
every `images` row whose `tile_id` appears in `SELECT tile_id FROM map WHERE
<filter>` — regardless of references from coordinates outside the filter —
and then deletes the matching `map` rows. -/
def delete_tiles (min_zoom max_zoom min_timestamp max_timestamp : ℤ) (scale : Option ℤ)
    (db : SQLiteDB) : Except PyErr SQLiteDB :=
  if 0 < max_timestamp then .error .typeError
  else
    let sel := deleteTest min_zoom max_zoom min_timestamp scale
    let tids := (db.map.filter sel).filterMap (fun r => r.tile_id)
    .ok { map := db.map.filter fun r => !(sel r),
          images := db.images.filter fun i => !(tids.contains i.tile_id) }

/-- `MBTilesSQLite.expire_tile`, compacted branch: deletes every `images` row
whose `tile_id` appears in `SELECT tile_id FROM map WHERE zoom_level=z AND
tile_column=x AND tile_row=y [AND tile_scale=s]` (again regardless of outside
references), then sets `tile_id=NULL, updated_at=now` on the matching `map`
rows (`now` is `int(time.time())` at the call). -/
def expire_tile (tile_z tile_x tile_y : ℤ) (scale : Option ℤ) (now : ℤ)
    (db : SQLiteDB) : SQLiteDB :=
  let sel : MapRow → Bool := fun r =>
    r.zoom_level == tile_z && r.tile_column == tile_x && r.tile_row == tile_y &&
    scaleTest scale r.tile_scale
  let tids := (db.map.filter sel).filterMap (fun r => r.tile_id)
  { map := db.map.map fun r =>
      if sel r then { r with tile_id := none, updated_at := now } else r,
    images := db.images.filter fun i => !(tids.contains i.tile_id) }

end MBTilesSQLite

namespace MBTilesPostgres

/-- `MBTilesPostgres.max_timestamp`: `SELECT max(updated_at) FROM map`;
`fetchone()` always yields one row here, so the `if not result: return 0`
guard never fires and the function returns the SQL value — NULL (`none`) on
an empty `map`. -/
def max_timestamp (db : SQLiteDB) : Option ℤ :=
  match db.map.map (fun r => r.updated_at) with
  | [] => none
  | t :: rest => some (rest.foldl max t)

/-- `MBTilesPostgres.delete_tiles`: same statement construction as the SQLite
compacted branch (there is no non-compacted branch), with the same missing
`%` before `(max_timestamp,)`: any call with `max_timestamp > 0` raises
`TypeError` before either statement executes. -/
def delete_tiles (min_zoom max_zoom min_timestamp max_timestamp : ℤ) (scale : Option ℤ)
    (db : SQLiteDB) : Except PyErr SQLiteDB :=
  if 0 < max_timestamp then .error .typeError
  else
    let sel := MBTilesSQLite.deleteTest min_zoom max_zoom min_timestamp scale
    let tids := (db.map.filter sel).filterMap (fun r => r.tile_id)
    .ok { map := db.map.filter fun r => !(sel r),
          images := db.images.filter fun i => !(tids.contains i.tile_id) }

end MBTilesPostgres

namespace MBTilesMySQL

/-- `MBTilesMySQL.delete_tiles`: builds the same delete statements (with the
same missing `%` before `(max_timestamp,)`, raising `TypeError` whenever
`max_timestamp > 0` before anything executes) and, after the hard delete,
additionally runs an expire pass setting `tile_id=NULL, updated_at=now` on
the remaining rows of the window. -/
def delete_tiles (min_zoom max_zoom min_timestamp max_timestamp : ℤ) (scale : Option ℤ)
    (now : ℤ) (db : SQLiteDB) : Except PyErr SQLiteDB :=
  if 0 < max_timestamp then .error .typeError
  else
    let sel := MBTilesSQLite.deleteTest min_zoom max_zoom min_timestamp scale
    let tids := (db.map.filter sel).filterMap (fun r => r.tile_id)
    let db1 : SQLiteDB :=
      { map := db.map.filter fun r => !(sel r),
        images := db.images.filter fun i => !(tids.contains i.tile_id) }
    let tids2 := (db1.map.filter sel).filterMap (fun r => r.tile_id)
    .ok { map := db1.map.map fun r =>
            if sel r then { r with tile_id := none, updated_at := now } else r,
          images := db1.images.filter fun i => !(tids2.contains i.tile_id) }

end MBTilesMySQL

/-! ## Schema state and `mbtiles_setup` (claim C5)

The schema-object state tracks which tables, indexes and views exist and
which columns the `map` table has; DDL statements are embedded as state
transformers, a caught exception (`try/except ...: pass`) as the identity on
the failing branch, and an uncaught one as `none`.  Row data is not modelled
(setup never touches rows). -/

structure SQLiteSchema where
  tbl_images : Bool
  tbl_map : Bool
  tbl_metadata : Bool
  /-- a TABLE named `tiles` (classic non-compacted mbtiles file): it makes
  `DROP VIEW tiles` fail (caught) and then `CREATE VIEW tiles` fail
  (uncaught). -/
  tbl_tiles : Bool
  idx_name : Bool
  idx_map_index : Bool
  idx_images_id : Bool
  view_tiles : Bool
  map_has_scale : Bool
  map_has_updated : Bool
  deriving DecidableEq, Repr

namespace MBTilesSQLite

/-- `MBTilesSQLite.mbtiles_setup` as a schema transformer.  In order:
`CREATE TABLE IF NOT EXISTS images/map/metadata` (a freshly created `map`
already has the `tile_scale` and `updated_at` columns), `CREATE UNIQUE INDEX
IF NOT EXISTS name`, `try: ALTER TABLE map ADD COLUMN tile_scale; DROP INDEX
map_index except: pass` (the `ALTER` fails iff the column exists, skipping
the `DROP`), `try: ALTER ... updated_at`, `try: DROP VIEW tiles`,
`CREATE VIEW tiles` (fails — uncaught — iff a table named `tiles` exists),
`CREATE UNIQUE INDEX IF NOT EXISTS map_index/images_id`. -/
def mbtiles_setup (s : SQLiteSchema) : Option SQLiteSchema :=
  let s1 : SQLiteSchema :=
    { s with tbl_images := true, tbl_map := true, tbl_metadata := true,
             map_has_scale := if s.tbl_map then s.map_has_scale else true,
             map_has_updated := if s.tbl_map then s.map_has_updated else true }
  let s2 := { s1 with idx_name := true }
  let s3 := if s2.map_has_scale then s2
            else { s2 with map_has_scale := true, idx_map_index := false }
  let s4 := { s3 with map_has_updated := true }
  let s5 := { s4 with view_tiles := false }
  if s5.tbl_tiles then none
  else some { s5 with view_tiles := true, idx_map_index := true, idx_images_id := true }

/-- `MBTilesSQLite.is_compacted`: probes `sqlite_master` for both the
`images` and the `map` table. -/
def is_compacted (s : SQLiteSchema) : Bool := s.tbl_images && s.tbl_map

/-- `MBTilesSQLite.has_scale`: probes `SELECT tile_scale FROM map LIMIT 1`,
which succeeds iff `map` exists and has the column. -/
def has_scale (s : SQLiteSchema) : Bool := s.tbl_map && s.map_has_scale

end MBTilesSQLite

structure PgSchema where
  tbl_images : Bool
  tbl_map : Bool
  tbl_metadata : Bool
  /-- a TABLE named `tiles`: `CREATE OR REPLACE VIEW tiles` cannot replace a
  table and fails (uncaught). -/
  tbl_tiles : Bool
  idx_metadata_name : Bool
  /-- `some b`: the unique coordinate index exists, created over
  `(zoom_level, tile_column, tile_row[, tile_scale])` with `b` recording
  whether the scale column is part of it. -/
  idx_map_coordinate : Option Bool
  idx_images_id : Bool
  /-- `some b`: the `tiles` view exists, with (`b`) or without the
  `tile_scale` column.  `CREATE OR REPLACE VIEW` fails (uncaught) when the
  existing view has a different column list. -/
  view_tiles : Option Bool
  proc_scale : Bool
  proc_noscale : Bool
  map_has_scale : Bool
  deriving DecidableEq, Repr

namespace MBTilesPostgres

/-- `MBTilesPostgres.mbtiles_setup` as a schema transformer.  In order:
`CREATE TABLE IF NOT EXISTS images/map/metadata`, guarded creation of
`metadata_name_index`, `CREATE OR REPLACE VIEW tiles` with or without the
scale column depending on `has_scale()` (fails iff a table named `tiles`
exists or an existing view has the other column list), guarded creation of
`map_coordinate_index` and `images_id_index`, guarded creation of the
`update_map_proc` upsert procedure (the guard counts procedures of that name,
either arity), and — when `has_scale()` is false — `CREATE OR REPLACE` of
the four-argument variant. -/
def mbtiles_setup (s : PgSchema) : Option PgSchema :=
  let hs : Bool := if s.tbl_map then s.map_has_scale else true
  if s.tbl_tiles then none
  else if (match s.view_tiles with | some b => b != hs | none => false) then none
  else some
    { tbl_images := true, tbl_map := true, tbl_metadata := true,
      tbl_tiles := s.tbl_tiles,
      idx_metadata_name := true,
      idx_map_coordinate := some (s.idx_map_coordinate.getD hs),
      idx_images_id := true,
      view_tiles := some hs,
      proc_scale := if s.proc_scale || s.proc_noscale then s.proc_scale else true,
      proc_noscale := if hs then s.proc_noscale else true,
      map_has_scale := hs }

/-- `MBTilesPostgres.has_scale`: probes `SELECT tile_scale FROM map LIMIT 1`. -/
def has_scale (s : PgSchema) : Bool := s.tbl_map && s.map_has_scale

/-- `MBTilesPostgres` inherits `MBTilesDatabase.is_compacted`, which returns
`True` unconditionally. -/
def is_compacted (s : PgSchema) : Bool := true

end MBTilesPostgres

/-! ## Connection factory (claim C8) -/

/-- The candidate backends `database_connect` can instantiate. -/
inductive Backend where
  | sqlite
  | postgres
  | mysql
  | mongodb
  deriving DecidableEq, Repr

/-- Python `sub in s` / `s.find(sub) >= 0` on character lists: `p` matches at
the head of `s`. -/
def headMatch : List Char → List Char → Bool
  | [], _ => true
  | _ :: _, [] => false
  | a :: as, b :: bs => a == b && headMatch as bs

/-- Python `s.find(sub) >= 0`: `p` occurs somewhere in `s`. -/
def subMatch (p : List Char) : List Char → Bool
  | [] => p.isEmpty
  | s@(_ :: rest) => headMatch p s || subMatch p rest

/-- Python `s.endswith(p)`. -/
def tailMatch (p s : List Char) : Bool := headMatch p.reverse s.reverse

/-- `database_connect`: dispatches on the connection string — `.mbtiles`
suffix first, then the postgres, mysql and mongodb patterns in order; an
unrecognised string logs an error and calls `sys.exit(1)` (embedded as
`none`). -/
def database_connect (connect_string : String) : Option Backend :=
  if tailMatch ".mbtiles".data connect_string.data then some .sqlite
  else if subMatch "driver=postgres".data connect_string.data ||
          headMatch "pg:".data connect_string.data then some .postgres
  else if subMatch "driver=mysql".data connect_string.data ||
          headMatch "my:".data connect_string.data then some .mysql
  else if subMatch "driver=mongodb".data connect_string.data ||
          headMatch "mongodb:".data connect_string.data then some .mongodb
  else none

/-! ## MongoDB backend (claims C6, C7, C9) -/

/-- One document of the `tiles` collection as written by
`MBTilesMongoDB.insert_tiles`: fields `z` (zoom), `t` (timestamp), `d`
(payload), and optionally `s` (scale — the bulk upsert never sets it, but a
query `{"s": scale}` would consult it). -/
structure MongoDoc where
  z : ℤ
  s : Option ℤ
  t : ℤ
  d : String
  deriving DecidableEq, Repr

namespace MBTilesMongoDB

/-- `MBTilesMongoDB.tiles_count`: builds a query with a `z` range only when
`min_zoom > 0 or max_zoom < 18`, an `s` equality only when a scale is given,
and a strict `t` range only for positive bounds; an empty query falls back to
`collection.count()`. -/
def tiles_count (min_zoom max_zoom min_timestamp max_timestamp : ℤ) (scale : Option ℤ)
    (docs : List MongoDoc) : ℕ :=
  (docs.filter fun doc =>
      (if 0 < min_zoom then decide (min_zoom ≤ doc.z) else true) &&
      (if max_zoom < 18 then decide (doc.z ≤ max_zoom) else true) &&
      (match scale with | none => true | some sc => doc.s == some sc) &&
      (if 0 < min_timestamp then decide (min_timestamp < doc.t) else true) &&
      (if 0 < max_timestamp then decide (doc.t < max_timestamp) else true)).length

/-- `MBTilesMongoDB.max_timestamp`: literally `return 0`, whatever the
collection holds. -/
def max_timestamp (docs : List MongoDoc) : ℤ := 0

/-- `MBTilesMongoDB.is_compacted`: literally `return False`. -/
def is_compacted (docs : List MongoDoc) : Bool := false

/-- `MBTilesMongoDB.columns_and_rows_for_zoom_level`: `raise("Not
implemented")` — a raised string, not `NotImplementedError`. -/
def columns_and_rows_for_zoom_level (zoom_level : ℤ) (scale : Option ℤ)
    (docs : List MongoDoc) : Except PyErr (List (ℤ × ℤ)) :=
  .error (.raiseStr "Not implemented")

/-- `MBTilesMongoDB.columns_for_zoom_level_and_row`: `raise("Not
implemented")`. -/
def columns_for_zoom_level_and_row (zoom_level row : ℤ) (scale : Option ℤ)
    (docs : List MongoDoc) : Except PyErr (List ℤ) :=
  .error (.raiseStr "Not implemented")

/-- `MBTilesMongoDB.bounding_box_for_zoom_level`: `raise("Not
implemented")`. -/
def bounding_box_for_zoom_level (zoom_level : ℤ) (scale : Option ℤ)
    (docs : List MongoDoc) : Except PyErr (ℤ × ℤ × ℤ × ℤ) :=
  .error (.raiseStr "Not implemented")

/-- `MBTilesMongoDB.updates`: `raise("Not implemented")`. -/
def updates (min_zoom max_zoom min_timestamp max_timestamp : ℤ) (docs : List MongoDoc) :
    Except PyErr (List UpdateRow) :=
  .error (.raiseStr "Not implemented")

/-- `MBTilesMongoDB.updates_count`: `raise("Not implemented")`. -/
def updates_count (min_zoom max_zoom min_timestamp max_timestamp : ℤ)
    (docs : List MongoDoc) : Except PyErr ℕ :=
  .error (.raiseStr "Not implemented")

/-- `MBTilesMongoDB.delete_tiles`: `raise("Not implemented")`. -/
def delete_tiles (min_zoom max_zoom min_timestamp max_timestamp : ℤ) (scale : Option ℤ)
    (docs : List MongoDoc) : Except PyErr (List MongoDoc) :=
  .error (.raiseStr "Not implemented")

end MBTilesMongoDB

/-! ## Spec-side comparison definitions -/

/-- Follows the spec's words (for comparison with `MBTilesSQLite.tiles_count`):
the count of present coordinates with an explicit zoom restriction to the
full valid range `0–18`, the other filters unchanged. -/
def tiles_count_fullRange (min_timestamp max_timestamp : ℤ) (scale : Option ℤ)
    (db : SQLiteDB) : ℕ :=
  (db.map.filter fun r =>
      decide (0 ≤ r.zoom_level) && decide (r.zoom_level ≤ 18) &&
      scaleTest scale r.tile_scale &&
      (if 0 < min_timestamp then decide (min_timestamp < r.updated_at) else true) &&
      (if 0 < max_timestamp then decide (r.updated_at < max_timestamp) else true) &&
      r.tile_id != none).length

/-- Follows the spec's words (for comparison with
`MBTilesMongoDB.tiles_count`): the document count with an explicit zoom
restriction to the full valid range `0–18`. -/
def mongo_count_fullRange (docs : List MongoDoc) : ℕ :=
  (docs.filter fun doc => decide (0 ≤ doc.z) && decide (doc.z ≤ 18)).length


/-! ## Helper lemmas -/

/-- `List.foldl max` starting at `a` yields `a` or a list element. -/
lemma foldl_max_mem (l : List ℤ) (a : ℤ) : l.foldl max a = a ∨ l.foldl max a ∈ l := by
  induction l generalizing a with
  | nil => exact Or.inl rfl
  | cons b t ih =>
    rcases ih (max a b) with h | h
    · rcases le_total a b with hab | hba
      · right
        rw [List.foldl_cons, h, max_eq_right hab]
        exact List.mem_cons_self b t
      · left
        rw [List.foldl_cons, h, max_eq_left hba]
    · right
      exact List.mem_cons_of_mem b (by rw [List.foldl_cons]; exact h)

/-- Every element of the list is bounded by `List.foldl max`, as is the
start. -/
lemma foldl_max_le (l : List ℤ) (a : ℤ) :
    a ≤ l.foldl max a ∧ ∀ x ∈ l, x ≤ l.foldl max a := by
  induction l generalizing a with
  | nil => exact ⟨le_refl a, by intro x hx; cases hx⟩
  | cons b t ih =>
    obtain ⟨h1, h2⟩ := ih (max a b)
    refine ⟨le_trans (le_max_left a b) h1, ?_⟩
    intro x hx
    rcases List.mem_cons.mp hx with rfl | hx
    · exact le_trans (le_max_right a x) h1
    · exact h2 x hx

/-- Python `int(k + 0.5)` for an integer `k ≥ 0`. -/
lemma pyInt_add_half (k : ℤ) (hk : 0 ≤ k) : pyInt ((k : ℚ) + 1 / 2) = k := by
  unfold pyInt
  rw [if_pos (by positivity)]
  rw [Int.floor_eq_iff]
  refine ⟨by linarith, by norm_num⟩

/-- Python `int(k - 0.5)` for an integer `k ≥ 0`: `k - 1` when `k ≥ 1`
(truncation toward zero equals floor on nonnegative input), and `0` for
`k = 0` (truncation toward zero of `-0.5`). -/
lemma pyInt_sub_half (k : ℤ) (hk : 0 ≤ k) : pyInt ((k : ℚ) - 1 / 2) = max (k - 1) 0 := by
  rcases le_or_lt 1 k with h1 | h1
  · rw [max_eq_left (by omega)]
    unfold pyInt
    rw [if_pos (by linarith [(by exact_mod_cast h1 : (1:ℚ) ≤ (k:ℚ))])]
    rw [Int.floor_eq_iff]
    constructor
    · push_cast
      linarith [(by exact_mod_cast h1 : (1:ℚ) ≤ (k:ℚ))]
    · push_cast
      linarith
  · have hk0 : k = 0 := by omega
    subst hk0
    rw [max_eq_right (by omega)]
    unfold pyInt
    rw [if_neg (by norm_num)]
    rw [Int.ceil_eq_iff]
    constructor <;> norm_num

/-- Projecting a fractional tile index to coordinates and back recovers the
Python-truncated index: the two spec-modelled conversions are exact inverses
up to `int()`. -/
lemma coordinate_to_tile_comp (ax ay : ℚ) (z : ℕ) :
    coordinate_to_tile (tile_to_coordinate ax ay z).1 (tile_to_coordinate ax ay z).2 z
      = (pyInt ax, pyInt ay) := by
  have h2 : ((2 : ℚ)) ^ z ≠ 0 := by positivity
  unfold coordinate_to_tile tile_to_coordinate
  dsimp only
  congr 1
  · congr 1
    field_simp
    ring
  · congr 1
    field_simp
    ring

lemma intRange_self (a : ℤ) : intRange a a = [a] := by
  unfold intRange
  rw [show (a + 1 - a).toNat = 1 by omega, show List.range 1 = [0] from rfl]
  simp

lemma intRange_pred (a : ℤ) : intRange (a - 1) a = [a - 1, a] := by
  unfold intRange
  rw [show (a + 1 - (a - 1)).toNat = 2 by omega]
  rw [show List.range 2 = [0, 1] from rfl]
  simp

lemma count_quad (z : ℕ) (a b x y : ℤ) (hxa : x ≠ a) (hyb : y ≠ b) :
    ([(z, a, b), (z, a, y), (z, x, b), (z, x, y)] : List (ℕ × ℤ × ℤ)).count (z, x, y)
      = 1 := by
  simp [List.count_cons, Prod.mk.injEq, hxa, hyb]

lemma count_two_x (z : ℕ) (a x y : ℤ) (hxa : x ≠ a) :
    ([(z, a, y), (z, x, y)] : List (ℕ × ℤ × ℤ)).count (z, x, y) = 1 := by
  simp [List.count_cons, Prod.mk.injEq, hxa]

lemma count_two_y (z : ℕ) (b x y : ℤ) (hyb : y ≠ b) :
    ([(z, x, b), (z, x, y)] : List (ℕ × ℤ × ℤ)).count (z, x, y) = 1 := by
  simp [List.count_cons, Prod.mk.injEq, hyb]

lemma count_one (z : ℕ) (x y : ℤ) :
    ([(z, x, y)] : List (ℕ × ℤ × ℤ)).count (z, x, y) = 1 := by
  simp

/-- Core of the round trip: enumerating the bbox of the (possibly
pre-flipped) tile `(x, ty)` at its own zoom level yields the output address
`(z, x, flip? ty)` exactly once (the enumeration may also emit neighbouring
addresses, each different from the target). -/
lemma tiles_for_bbox_roundtrip_count (z : ℕ) (x ty : ℤ) (fl : Bool)
    (hx0 : 0 ≤ x) (hx : x < 2 ^ z) (hty0 : 0 ≤ ty) (htyB : ty < 2 ^ z) :
    (tiles_for_bbox (tile_to_coordinate ((x : ℚ) - 1 / 2) ((ty : ℚ) + 1 / 2) z).1
        (tile_to_coordinate ((x : ℚ) - 1 / 2) ((ty : ℚ) + 1 / 2) z).2
        (tile_to_coordinate ((x : ℚ) + 1 / 2) ((ty : ℚ) - 1 / 2) z).1
        (tile_to_coordinate ((x : ℚ) + 1 / 2) ((ty : ℚ) - 1 / 2) z).2 z fl).count
      (z, x, if fl then flip_y z ty else ty) = 1 := by
  unfold tiles_for_bbox
  rw [coordinate_to_tile_comp, coordinate_to_tile_comp]
  dsimp only
  rw [pyInt_sub_half x hx0, pyInt_add_half ty hty0, pyInt_add_half x hx0,
    pyInt_sub_half ty hty0]
  rcases le_or_lt 1 ty with hty1 | hty1
  · rw [max_eq_left (by omega : (0 : ℤ) ≤ ty - 1)]
    rw [if_pos (by omega : ty > ty - 1), if_pos (by omega : ty > ty - 1)]
    rcases le_or_lt 1 x with hx1 | hx1
    · rw [max_eq_left (by omega : (0 : ℤ) ≤ x - 1), intRange_pred, intRange_pred]
      simp only [List.flatMap_cons, List.flatMap_nil, List.map_cons, List.map_nil,
        List.append_nil, List.cons_append, List.nil_append]
      cases fl
      · simp only [Bool.false_eq_true, if_false]
        exact count_quad z (x - 1) (ty - 1) x ty (by omega) (by omega)
      · simp only [if_true, flip_y]
        exact count_quad z (x - 1) (2 ^ z - 1 - (ty - 1)) x (2 ^ z - 1 - ty)
          (by omega) (by omega)
    · have hx0' : x = 0 := by omega
      subst hx0'
      rw [show max ((0 : ℤ) - 1) 0 = 0 by omega, intRange_self, intRange_pred]
      simp only [List.flatMap_cons, List.flatMap_nil, List.map_cons, List.map_nil,
        List.append_nil, List.cons_append, List.nil_append]
      cases fl
      · simp only [Bool.false_eq_true, if_false]
        exact count_two_y z (ty - 1) 0 ty (by omega)
      · simp only [if_true, flip_y]
        exact count_two_y z (2 ^ z - 1 - (ty - 1)) 0 (2 ^ z - 1 - ty) (by omega)
  · have hty0' : ty = 0 := by omega
    subst hty0'
    rw [show max ((0 : ℤ) - 1) 0 = 0 by omega]
    simp only [ite_self]
    rw [intRange_self]
    rcases le_or_lt 1 x with hx1 | hx1
    · rw [max_eq_left (by omega : (0 : ℤ) ≤ x - 1), intRange_pred]
      simp only [List.flatMap_cons, List.flatMap_nil, List.map_cons, List.map_nil,
        List.append_nil, List.cons_append, List.nil_append]
      cases fl
      · simp only [Bool.false_eq_true, if_false]
        exact count_two_x z (x - 1) x 0 (by omega)
      · simp only [if_true, flip_y]
        exact count_two_x z (x - 1) x (2 ^ z - 1 - 0) (by omega)
    · have hx0' : x = 0 := by omega
      subst hx0'
      rw [show max ((0 : ℤ) - 1) 0 = 0 by omega, intRange_self]
      simp only [List.flatMap_cons, List.flatMap_nil, List.map_cons, List.map_nil,
        List.append_nil]
      cases fl
      · simp only [Bool.false_eq_true, if_false]
        exact count_one z 0 0
      · simp only [if_true, flip_y]
        exact count_one z 0 (2 ^ z - 1 - 0)

/-- Numeric bounds on `exp π` from `exp 1` and coarse Taylor bounds. -/
lemma exp_pi_bounds : (22.9 : ℝ) < Real.exp Real.pi ∧ Real.exp Real.pi < 23.4 := by
  have h3eq : Real.exp (3 : ℝ) = Real.exp 1 ^ 3 := by
    rw [show (3 : ℝ) = ((3 : ℕ) : ℝ) * 1 by norm_num, Real.exp_nat_mul]
  have e3_lo : (20.085 : ℝ) < Real.exp 3 := by
    rw [h3eq]
    calc (20.085 : ℝ) < 2.7182818283 ^ 3 := by norm_num
      _ < Real.exp 1 ^ 3 :=
          pow_lt_pow_left₀ Real.exp_one_gt_d9 (by norm_num) (by norm_num)
  have e3_hi : Real.exp 3 < 20.086 := by
    rw [h3eq]
    calc Real.exp 1 ^ 3 < 2.7182818286 ^ 3 :=
          pow_lt_pow_left₀ Real.exp_one_lt_d9 (Real.exp_pos 1).le (by norm_num)
      _ < 20.086 := by norm_num
  have hsplit : Real.exp Real.pi = Real.exp 3 * Real.exp (Real.pi - 3) := by
    rw [← Real.exp_add]
    norm_num
  have hlo2 : (1.141592 : ℝ) ≤ Real.exp (Real.pi - 3) := by
    have h1 := Real.add_one_le_exp (Real.pi - 3)
    have h2 := Real.pi_gt_d6
    linarith
  have hhi2 : Real.exp (Real.pi - 3) ≤ (1.16495 : ℝ) := by
    have h1 : Real.exp (Real.pi - 3) < Real.exp 0.141593 :=
      Real.exp_lt_exp.mpr (by linarith [Real.pi_lt_d6])
    have h2 : Real.exp (0.141593 : ℝ) ≤ 1 / (1 - 0.141593) :=
      Real.exp_bound_div_one_sub_of_interval (by norm_num) (by norm_num)
    have h3 : (1 : ℝ) / (1 - 0.141593) ≤ 1.16495 := by norm_num
    linarith
  constructor
  · rw [hsplit]
    nlinarith [Real.exp_pos (3 : ℝ), Real.exp_pos (Real.pi - 3)]
  · rw [hsplit]
    nlinarith [Real.exp_pos (3 : ℝ), Real.exp_pos (Real.pi - 3)]

/-- Numeric bounds on `sinh π`, the quantity whose arctangent is the maximal
Web-Mercator latitude. -/
lemma sinh_pi_bounds : (11.42 : ℝ) < Real.sinh Real.pi ∧ Real.sinh Real.pi < 11.68 := by
  obtain ⟨hlo, hhi⟩ := exp_pi_bounds
  have hpos : (0 : ℝ) < Real.exp Real.pi := Real.exp_pos _
  have hs : Real.sinh Real.pi = (Real.exp Real.pi - Real.exp (-Real.pi)) / 2 :=
    Real.sinh_eq Real.pi
  have hneg : Real.exp (-Real.pi) = (Real.exp Real.pi)⁻¹ := Real.exp_neg Real.pi
  have hinv_hi : (Real.exp Real.pi)⁻¹ < 0.044 := by
    rw [inv_eq_one_div, div_lt_iff₀ hpos]
    linarith
  have hinv_lo : (0.042 : ℝ) < (Real.exp Real.pi)⁻¹ := by
    rw [inv_eq_one_div, lt_div_iff₀ hpos]
    linarith
  rw [hs, hneg]
  constructor <;> linarith

/-- `arctan t < t` for positive `t`. -/
lemma arctan_lt_self_of_pos {t : ℝ} (ht : 0 < t) : Real.arctan t < t := by
  have h1 : 0 < Real.arctan t := by
    have h := Real.arctan_strictMono ht
    rwa [Real.arctan_zero] at h
  have h2 := Real.lt_tan h1 (Real.arctan_lt_pi_div_two t)
  rwa [Real.tan_arctan] at h2

/-- `t / (1 + t²/2) ≤ arctan t` for positive `t`, via
`arctan t = arcsin (t / √(1+t²))`, `√(1+t²) ≤ 1 + t²/2` and `v ≤ arcsin v`. -/
lemma arctan_lower_bound {t : ℝ} (ht : 0 < t) :
    t / (1 + t ^ 2 / 2) ≤ Real.arctan t := by
  have hsqpos : (0 : ℝ) < 1 + t ^ 2 := by positivity
  have hsqrtpos : 0 < Real.sqrt (1 + t ^ 2) := Real.sqrt_pos.mpr hsqpos
  have hsq : Real.sqrt (1 + t ^ 2) ≤ 1 + t ^ 2 / 2 := by
    rw [show (1 + t ^ 2 / 2 : ℝ) = Real.sqrt ((1 + t ^ 2 / 2) ^ 2) from
      (Real.sqrt_sq (by positivity)).symm]
    apply Real.sqrt_le_sqrt
    nlinarith [sq_nonneg t]
  have hw_pos : 0 < t / Real.sqrt (1 + t ^ 2) := div_pos ht hsqrtpos
  have hv1 : t / Real.sqrt (1 + t ^ 2) ≤ 1 := by
    rw [div_le_one hsqrtpos]
    calc t = Real.sqrt (t ^ 2) := (Real.sqrt_sq ht.le).symm
      _ ≤ Real.sqrt (1 + t ^ 2) := Real.sqrt_le_sqrt (by linarith)
  have harcsin : t / Real.sqrt (1 + t ^ 2) ≤
      Real.arcsin (t / Real.sqrt (1 + t ^ 2)) := by
    have harc_pos : 0 < Real.arcsin (t / Real.sqrt (1 + t ^ 2)) :=
      Real.arcsin_pos.mpr hw_pos
    have hsin := Real.sin_lt harc_pos
    rw [Real.sin_arcsin (by linarith) hv1] at hsin
    exact hsin.le
  have hmono : t / (1 + t ^ 2 / 2) ≤ t / Real.sqrt (1 + t ^ 2) := by
    gcongr
  rw [Real.arctan_eq_arcsin]
  exact le_trans hmono harcsin

/-- The maximal Web-Mercator latitude `latOfMercDeg 1 = arctan (sinh π) ·
180/π` lies within 0.1 degrees of 85.05. -/
lemma latOfMercDeg_one_near : |latOfMercDeg 1 - 85.05| < 1 / 10 := by
  obtain ⟨hs_lo, hs_hi⟩ := sinh_pi_bounds
  have hspos : (0 : ℝ) < Real.sinh Real.pi := by linarith
  have hid : Real.arctan (Real.sinh Real.pi) =
      Real.pi / 2 - Real.arctan (Real.sinh Real.pi)⁻¹ := by
    have h := Real.arctan_inv_of_pos hspos
    linarith
  have ht_hi : (Real.sinh Real.pi)⁻¹ < 0.0876 := by
    rw [inv_eq_one_div, div_lt_iff₀ hspos]
    linarith
  have ht_lo : (0.0856 : ℝ) < (Real.sinh Real.pi)⁻¹ := by
    rw [inv_eq_one_div, lt_div_iff₀ hspos]
    linarith
  have htpos : (0 : ℝ) < (Real.sinh Real.pi)⁻¹ := by linarith
  have hA_hi : Real.arctan (Real.sinh Real.pi)⁻¹ < 0.0876 :=
    lt_trans (arctan_lt_self_of_pos htpos) ht_hi
  have hA_lo : (0.0852 : ℝ) < Real.arctan (Real.sinh Real.pi)⁻¹ := by
    have h1 := arctan_lower_bound htpos
    have h2 : (0.0852 : ℝ) < (Real.sinh Real.pi)⁻¹ / (1 + ((Real.sinh Real.pi)⁻¹) ^ 2 / 2) := by
      rw [lt_div_iff₀ (by positivity)]
      nlinarith
    linarith
  have hpi_pos : (0 : ℝ) < Real.pi := Real.pi_pos
  have hpi_lo := Real.pi_gt_d6
  have hpi_hi := Real.pi_lt_d6
  unfold latOfMercDeg
  rw [mul_one, hid, abs_lt]
  constructor
  · rw [lt_sub_iff_add_lt, lt_div_iff₀ hpi_pos]
    nlinarith
  · rw [sub_lt_iff_lt_add, div_lt_iff₀ hpi_pos]
    nlinarith

/-- A 5-tuple in the output of `MBTilesSQLite.tiles` comes from a `map` row
with the same coordinates and a non-null `tile_id`. -/
lemma tiles_mem_coords {db : SQLiteDB} {mz Mz mt Mt : ℤ} {sc : Option ℤ}
    {z x y s : ℤ} {d : String}
    (h : (z, x, y, s, d) ∈ MBTilesSQLite.tiles mz Mz mt Mt sc db) :
    ∃ r ∈ db.map, r.zoom_level = z ∧ r.tile_column = x ∧ r.tile_row = y ∧
      r.tile_scale = s ∧ r.tile_id ≠ none := by
  unfold MBTilesSQLite.tiles at h
  obtain ⟨v, hv, hproj⟩ := List.mem_map.mp h
  have hvv : v ∈ tilesView db := (List.mem_filter.mp hv).1
  unfold tilesView at hvv
  obtain ⟨r, hr, hmem2⟩ := List.mem_flatMap.mp hvv
  obtain ⟨i, hi, hveq⟩ := List.mem_map.mp hmem2
  have hid : r.tile_id = some i.tile_id := by
    have h2 := (List.mem_filter.mp hi).2
    simpa using h2
  subst hveq
  simp only [Prod.mk.injEq] at hproj
  obtain ⟨h1, h2, h3, h4, h5⟩ := hproj
  exact ⟨r, hr, h1, h2, h3, h4, by rw [hid]; simp⟩

/-- After `expire_tile z x y (some s) now`, every `map` row carrying exactly
these coordinates has a null `tile_id` and update timestamp `now`. -/
lemma expire_tile_matching_null {db : SQLiteDB} {z x y s now : ℤ} :
    ∀ r ∈ (MBTilesSQLite.expire_tile z x y (some s) now db).map,
      r.zoom_level = z → r.tile_column = x → r.tile_row = y → r.tile_scale = s →
      r.tile_id = none ∧ r.updated_at = now := by
  intro r hr h1 h2 h3 h4
  unfold MBTilesSQLite.expire_tile at hr
  obtain ⟨r0, hr0, hg⟩ := List.mem_map.mp hr
  by_cases hsel : (r0.zoom_level == z && r0.tile_column == x && r0.tile_row == y &&
      scaleTest (some s) r0.tile_scale) = true
  · rw [if_pos hsel] at hg
    rw [← hg]
    exact ⟨rfl, rfl⟩
  · rw [if_neg hsel] at hg
    subst hg
    exact absurd (by simp [scaleTest, h1, h2, h3, h4]) hsel

/-! ## Claim theorems -/

/-- C1 (code_bug evidence): on the compacted SQLite backend, two distinct
coordinates — `(z=1,x=0,y=0,s=1)` and `(z=2,x=0,y=0,s=1)` — share the content
row `"A"`.  `delete_tiles(2,2,0,0,None)` removes only the second coordinate,
yet deletes the shared `images` row (the image-selection subquery ignores
references from coordinates outside the filter), leaving the surviving
coordinate dangling; `expire_tile(2,0,0,1)` does the same.  This contradicts
the claim and the spec's dedup invariant. -/
theorem claim1_shared_content_removed :
    MBTilesSQLite.delete_tiles 2 2 0 0 none
        ⟨[⟨1, 0, 0, 1, some "A", 10⟩, ⟨2, 0, 0, 1, some "A", 10⟩], [⟨"A", "d"⟩]⟩
      = .ok ⟨[⟨1, 0, 0, 1, some "A", 10⟩], []⟩ ∧
    MBTilesSQLite.expire_tile 2 0 0 (some 1) 20
        ⟨[⟨1, 0, 0, 1, some "A", 10⟩, ⟨2, 0, 0, 1, some "A", 10⟩], [⟨"A", "d"⟩]⟩
      = ⟨[⟨1, 0, 0, 1, some "A", 10⟩, ⟨2, 0, 0, 1, none, 20⟩], []⟩ := by
  constructor
  · rfl
  · rfl

/-- C2: for every tile address `(z, x, y)` with `0 ≤ x, y < 2^z` and either
row-flip setting, converting the tile to its bounding box with
`convert_tile_to_bbox` and enumerating `convert_bbox_to_tiles` over that box
with `min_zoom = max_zoom = z` yields a sequence containing the original
`(z, x, y)` exactly once. -/
theorem claim2_bbox_roundtrip (z : ℕ) (x y : ℤ) (fl : Bool)
    (hx0 : 0 ≤ x) (hx : x < 2 ^ z) (hy0 : 0 ≤ y) (hy : y < 2 ^ z) :
    (convert_bbox_to_tiles (convert_tile_to_bbox z x y fl).1
        (convert_tile_to_bbox z x y fl).2.1
        (convert_tile_to_bbox z x y fl).2.2.1
        (convert_tile_to_bbox z x y fl).2.2.2 fl z z).count (z, x, y) = 1 := by
  have hself : ∀ (l b r t : ℚ) (fl' : Bool),
      convert_bbox_to_tiles l b r t fl' z z = tiles_for_bbox l b r t z fl' := by
    intro l b r t fl'
    unfold convert_bbox_to_tiles
    rw [show z + 1 - z = 1 by omega, show List.range 1 = [0] from rfl]
    simp
  rw [hself]
  obtain ⟨ty, hty⟩ : ∃ t : ℤ, t = if fl then flip_y z y else y := ⟨_, rfl⟩
  have hbbox : convert_tile_to_bbox z x y fl =
      ((tile_to_coordinate ((x : ℚ) - 1 / 2) ((ty : ℚ) + 1 / 2) z).1,
       (tile_to_coordinate ((x : ℚ) - 1 / 2) ((ty : ℚ) + 1 / 2) z).2,
       (tile_to_coordinate ((x : ℚ) + 1 / 2) ((ty : ℚ) - 1 / 2) z).1,
       (tile_to_coordinate ((x : ℚ) + 1 / 2) ((ty : ℚ) - 1 / 2) z).2) := by
    rw [hty]
    rfl
  rw [hbbox]
  dsimp only
  have hty0 : 0 ≤ ty := by
    cases fl <;> simp [flip_y] at hty <;> omega
  have htyB : ty < 2 ^ z := by
    cases fl <;> simp [flip_y] at hty <;> omega
  have htarget : (z, x, y) = (z, x, if fl then flip_y z ty else ty) := by
    cases fl <;> simp [flip_y, Prod.mk.injEq] at hty ⊢ <;> omega
  rw [htarget]
  exact tiles_for_bbox_roundtrip_count z x ty fl hx0 hx hty0 htyB

/-- Witness for C2 at the tile `(z, x, y) = (2, 1, 2)` with flipped rows. -/
theorem claim2_bbox_roundtrip_witness :
    (0 : ℤ) ≤ 1 ∧ (1 : ℤ) < 2 ^ 2 ∧ (0 : ℤ) ≤ 2 ∧ (2 : ℤ) < 2 ^ 2 ∧
    (convert_bbox_to_tiles (convert_tile_to_bbox 2 1 2 true).1
        (convert_tile_to_bbox 2 1 2 true).2.1
        (convert_tile_to_bbox 2 1 2 true).2.2.1
        (convert_tile_to_bbox 2 1 2 true).2.2.2 true 2 2).count (2, 1, 2) = 1 :=
  ⟨by decide, by decide, by decide, by decide,
   claim2_bbox_roundtrip 2 1 2 true (by decide) (by decide) (by decide) (by decide)⟩

/-- C10: `convert_tile_to_bbox(0, 0, 0, False)` returns the full-world
envelope: longitudes exactly `-180` and `180`, and latitude extent the full
Mercator parameter range `[-1, 1]`, whose southern and northern edges in
degrees are `±latOfMercDeg 1 = ±arctan (sinh π) · 180/π ≈ ∓85.05` (within
0.1 of 85.05). -/
theorem claim10_world_bbox :
    convert_tile_to_bbox 0 0 0 false = (-180, -1, 180, 1) ∧
    latOfMercDeg (-1) = -latOfMercDeg 1 ∧
    |latOfMercDeg 1 - 85.05| < 1 / 10 := by
  refine ⟨?_, ?_, latOfMercDeg_one_near⟩
  · norm_num [convert_tile_to_bbox, tile_to_coordinate, flip_y]
  · unfold latOfMercDeg
    rw [mul_neg, mul_one, Real.sinh_neg, Real.arctan_neg]
    ring

/-- C3: on the compacted SQLite backend, expiring a present tile `(z,x,y,s)`
removes it from every `tiles()` output, while `updates()` — over any window
containing the expiry time — still yields a coordinate row for `(z,x,y,s)`
with null content and null content id, and the coordinate row's update
timestamp equals (hence is at least) the time of the expiry call. -/
theorem claim3_expire_tile_changelog
    (db : SQLiteDB) (z x y s now minz maxz mints maxts : ℤ) (d : String)
    (hpresent : (z, x, y, s, d) ∈ MBTilesSQLite.tiles 0 18 0 0 none db)
    (hz1 : minz ≤ z) (hz2 : z ≤ maxz) (ht1 : mints < now) (ht2 : now < maxts) :
    (∀ (mz Mz mt Mt : ℤ) (sc : Option ℤ) (d' : String),
        (z, x, y, s, d') ∉ MBTilesSQLite.tiles mz Mz mt Mt sc
          (MBTilesSQLite.expire_tile z x y (some s) now db)) ∧
    UpdateRow.mk z x y s none none ∈
      MBTilesSQLite.updates minz maxz mints maxts
        (MBTilesSQLite.expire_tile z x y (some s) now db) ∧
    (∀ r ∈ (MBTilesSQLite.expire_tile z x y (some s) now db).map,
        r.zoom_level = z → r.tile_column = x → r.tile_row = y → r.tile_scale = s →
        r.tile_id = none ∧ now ≤ r.updated_at) := by
  obtain ⟨r0, hr0mem, hz, hx, hy, hs, -⟩ := tiles_mem_coords hpresent
  refine ⟨?_, ?_, ?_⟩
  · intro mz Mz mt Mt sc d' hmem
    obtain ⟨r', hr'mem, h1, h2, h3, h4, hid⟩ := tiles_mem_coords hmem
    obtain ⟨hnull, -⟩ := expire_tile_matching_null r' hr'mem h1 h2 h3 h4
    exact hid hnull
  · have hgr : ({ r0 with tile_id := none, updated_at := now } : MapRow) ∈
        (MBTilesSQLite.expire_tile z x y (some s) now db).map := by
      unfold MBTilesSQLite.expire_tile
      refine List.mem_map.mpr ⟨r0, hr0mem, ?_⟩
      rw [if_pos (by simp [scaleTest, hz, hx, hy, hs])]
    unfold MBTilesSQLite.updates
    refine List.mem_dedup.mpr (List.mem_append.mpr (Or.inr ?_))
    refine List.mem_map.mpr ⟨{ r0 with tile_id := none, updated_at := now }, ?_, ?_⟩
    · refine List.mem_filter.mpr ⟨hgr, ?_⟩
      simp [MBTilesSQLite.updatesWindow, hz, hz1, hz2, ht1, ht2]
    · simp [hz, hx, hy, hs]
  · intro r hr h1 h2 h3 h4
    obtain ⟨hnull, hupd⟩ := expire_tile_matching_null r hr h1 h2 h3 h4
    exact ⟨hnull, le_of_eq hupd.symm⟩

/-- Witness for C3 at a concrete store holding the present tile `(3,1,2,1)`
expired at time 20 and observed over the window `[15, 25]`. -/
theorem claim3_expire_tile_changelog_witness :
    (3, 1, 2, 1, "d") ∈ MBTilesSQLite.tiles 0 18 0 0 none
      ⟨[⟨3, 1, 2, 1, some "A", 10⟩], [⟨"A", "d"⟩]⟩ ∧
    ((∀ (mz Mz mt Mt : ℤ) (sc : Option ℤ) (d' : String),
        (3, 1, 2, 1, d') ∉ MBTilesSQLite.tiles mz Mz mt Mt sc
          (MBTilesSQLite.expire_tile 3 1 2 (some 1) 20
            ⟨[⟨3, 1, 2, 1, some "A", 10⟩], [⟨"A", "d"⟩]⟩)) ∧
     UpdateRow.mk 3 1 2 1 none none ∈
       MBTilesSQLite.updates 0 18 15 25
         (MBTilesSQLite.expire_tile 3 1 2 (some 1) 20
           ⟨[⟨3, 1, 2, 1, some "A", 10⟩], [⟨"A", "d"⟩]⟩) ∧
     (∀ r ∈ (MBTilesSQLite.expire_tile 3 1 2 (some 1) 20
          ⟨[⟨3, 1, 2, 1, some "A", 10⟩], [⟨"A", "d"⟩]⟩).map,
        r.zoom_level = 3 → r.tile_column = 1 → r.tile_row = 2 → r.tile_scale = 1 →
        r.tile_id = none ∧ (20 : ℤ) ≤ r.updated_at)) :=
  ⟨by decide,
   claim3_expire_tile_changelog ⟨[⟨3, 1, 2, 1, some "A", 10⟩], [⟨"A", "d"⟩]⟩
     3 1 2 1 20 0 18 15 25 "d" (by decide) (by decide) (by decide) (by decide)
     (by decide)⟩

/-- C4: every `delete_tiles` call with `max_timestamp > 0` on the compacted
SQLite, Postgres or MySQL backend raises `TypeError` while building the
image-selection SQL string (`" AND updated_at<%d " (max_timestamp,)`, the `%`
operator missing), before any delete statement executes, so the store is
unchanged. -/
theorem claim4_delete_tiles_raises_typeerror
    (db : SQLiteDB) (min_zoom max_zoom min_timestamp max_timestamp now : ℤ)
    (scale : Option ℤ) (h : 0 < max_timestamp) :
    MBTilesSQLite.delete_tiles min_zoom max_zoom min_timestamp max_timestamp scale db
        = .error .typeError ∧
    MBTilesPostgres.delete_tiles min_zoom max_zoom min_timestamp max_timestamp scale db
        = .error .typeError ∧
    MBTilesMySQL.delete_tiles min_zoom max_zoom min_timestamp max_timestamp scale now db
        = .error .typeError := by
  refine ⟨?_, ?_, ?_⟩ <;>
    simp [MBTilesSQLite.delete_tiles, MBTilesPostgres.delete_tiles,
      MBTilesMySQL.delete_tiles, h]

/-- Witness for C4 at a concrete store and arguments. -/
theorem claim4_delete_tiles_raises_typeerror_witness :
    (0 : ℤ) < 100 ∧
    (MBTilesSQLite.delete_tiles 0 18 0 100 none
        ⟨[⟨1, 0, 0, 1, some "A", 10⟩], [⟨"A", "d"⟩]⟩ = .error .typeError ∧
     MBTilesPostgres.delete_tiles 0 18 0 100 none
        ⟨[⟨1, 0, 0, 1, some "A", 10⟩], [⟨"A", "d"⟩]⟩ = .error .typeError ∧
     MBTilesMySQL.delete_tiles 0 18 0 100 none 50
        ⟨[⟨1, 0, 0, 1, some "A", 10⟩], [⟨"A", "d"⟩]⟩ = .error .typeError) :=
  ⟨by decide,
   claim4_delete_tiles_raises_typeerror ⟨[⟨1, 0, 0, 1, some "A", 10⟩], [⟨"A", "d"⟩]⟩
     0 18 0 100 50 none (by decide)⟩

/-- C7 (counterexample): the MongoDB backend's `max_timestamp` returns `0`
even for a store whose only coordinate has update timestamp `5`, and the
SQLite backend returns SQL NULL (`None`), not `0`, for an empty store. -/
theorem claim7_counterexample :
    MBTilesMongoDB.max_timestamp [⟨3, none, 5, "d"⟩] = 0 ∧
    (∃ doc ∈ ([⟨3, none, 5, "d"⟩] : List MongoDoc), doc.t = 5) ∧
    (0 : ℤ) ≠ 5 ∧
    MBTilesSQLite.max_timestamp ⟨[], []⟩ = none ∧
    (none : Option ℤ) ≠ some 0 := by
  refine ⟨rfl, ⟨⟨3, none, 5, "d"⟩, by simp⟩, by decide, rfl, by decide⟩

/-- C7 (amended): on the SQLite and Postgres backends `max_timestamp()`
returns the maximum `updated_at` over the coordinate rows when at least one
row exists, and SQL NULL (`None`, not `0`) when the `map` table is empty; the
MongoDB backend returns `0` unconditionally, whatever the collection
contains. -/
theorem claim7_max_timestamp_amended :
    (∀ db : SQLiteDB, db.map = [] →
        MBTilesSQLite.max_timestamp db = none ∧ MBTilesPostgres.max_timestamp db = none) ∧
    (∀ (db : SQLiteDB) (r : MapRow), r ∈ db.map →
        ∃ m, MBTilesSQLite.max_timestamp db = some m ∧
          MBTilesPostgres.max_timestamp db = some m ∧
          (∃ r' ∈ db.map, r'.updated_at = m) ∧
          ∀ r' ∈ db.map, r'.updated_at ≤ m) ∧
    (∀ docs : List MongoDoc, MBTilesMongoDB.max_timestamp docs = 0) := by
  refine ⟨?_, ?_, fun docs => rfl⟩
  · intro db h
    obtain ⟨mp, im⟩ := db
    rcases mp with _ | ⟨r0, rest⟩
    · exact ⟨rfl, rfl⟩
    · exact absurd h (by simp [SQLiteDB.map])
  · intro db r hr
    obtain ⟨mp, im⟩ := db
    rcases mp with _ | ⟨r0, rest⟩
    · cases hr
    · refine ⟨(rest.map (fun x => x.updated_at)).foldl max r0.updated_at, ?_, ?_, ?_, ?_⟩
      · rfl
      · rfl
      · rcases foldl_max_mem (rest.map (fun x => x.updated_at)) r0.updated_at with h | h
        · exact ⟨r0, List.mem_cons_self r0 rest, h.symm⟩
        · obtain ⟨r', hr', he⟩ := List.mem_map.mp h
          exact ⟨r', List.mem_cons_of_mem r0 hr', he⟩
      · intro r' hr'
        obtain ⟨h1, h2⟩ := foldl_max_le (rest.map (fun x => x.updated_at)) r0.updated_at
        rcases List.mem_cons.mp hr' with rfl | hmem
        · exact h1
        · exact h2 r'.updated_at (List.mem_map.mpr ⟨r', hmem, rfl⟩)

/-- Witness for the amended C7 at a concrete nonempty store. -/
theorem claim7_max_timestamp_amended_witness :
    (⟨3, 1, 2, 1, some "A", 10⟩ : MapRow) ∈
      (⟨[⟨3, 1, 2, 1, some "A", 10⟩], [⟨"A", "d"⟩]⟩ : SQLiteDB).map ∧
    ∃ m, MBTilesSQLite.max_timestamp ⟨[⟨3, 1, 2, 1, some "A", 10⟩], [⟨"A", "d"⟩]⟩ = some m ∧
      MBTilesPostgres.max_timestamp ⟨[⟨3, 1, 2, 1, some "A", 10⟩], [⟨"A", "d"⟩]⟩ = some m ∧
      (∃ r' ∈ (⟨[⟨3, 1, 2, 1, some "A", 10⟩], [⟨"A", "d"⟩]⟩ : SQLiteDB).map,
        r'.updated_at = m) ∧
      ∀ r' ∈ (⟨[⟨3, 1, 2, 1, some "A", 10⟩], [⟨"A", "d"⟩]⟩ : SQLiteDB).map,
        r'.updated_at ≤ m :=
  ⟨by decide,
   claim7_max_timestamp_amended.2.1 ⟨[⟨3, 1, 2, 1, some "A", 10⟩], [⟨"A", "d"⟩]⟩
     ⟨3, 1, 2, 1, some "A", 10⟩ (by decide)⟩

/-- C8 (counterexample): a descriptor that contains `driver=postgres` but
ends in `.mbtiles` is dispatched to the SQLite backend, not the Postgres
backend — the factory's pattern checks are ordered, so the per-pattern
universal statements of the claim fail. -/
theorem claim8_counterexample :
    subMatch "driver=postgres".data "driver=postgres.mbtiles".data = true ∧
    database_connect "driver=postgres.mbtiles" = some Backend.sqlite ∧
    some Backend.sqlite ≠ some Backend.postgres := by
  refine ⟨by decide, by decide, by decide⟩

/-- C8 (amended): `database_connect` tests the patterns in priority order —
`.mbtiles` suffix first, then the Postgres pattern (`driver=postgres`
substring or `pg:` prefix), then the MySQL pattern, then the MongoDB
pattern; each rule applies only when no earlier pattern matched, and a
descriptor matching no pattern makes the factory log an error and exit with
a non-zero status (`sys.exit(1)`) instead of returning a store. -/
theorem claim8_dispatch_amended (s : String) :
    (tailMatch ".mbtiles".data s.data = true → database_connect s = some .sqlite) ∧
    (tailMatch ".mbtiles".data s.data = false →
      (subMatch "driver=postgres".data s.data || headMatch "pg:".data s.data) = true →
      database_connect s = some .postgres) ∧
    (tailMatch ".mbtiles".data s.data = false →
      (subMatch "driver=postgres".data s.data || headMatch "pg:".data s.data) = false →
      (subMatch "driver=mysql".data s.data || headMatch "my:".data s.data) = true →
      database_connect s = some .mysql) ∧
    (tailMatch ".mbtiles".data s.data = false →
      (subMatch "driver=postgres".data s.data || headMatch "pg:".data s.data) = false →
      (subMatch "driver=mysql".data s.data || headMatch "my:".data s.data) = false →
      (subMatch "driver=mongodb".data s.data || headMatch "mongodb:".data s.data) = true →
      database_connect s = some .mongodb) ∧
    (tailMatch ".mbtiles".data s.data = false →
      (subMatch "driver=postgres".data s.data || headMatch "pg:".data s.data) = false →
      (subMatch "driver=mysql".data s.data || headMatch "my:".data s.data) = false →
      (subMatch "driver=mongodb".data s.data || headMatch "mongodb:".data s.data) = false →
      database_connect s = none) := by
  refine ⟨fun h1 => ?_, fun h1 h2 => ?_, fun h1 h2 h3 => ?_,
    fun h1 h2 h3 h4 => ?_, fun h1 h2 h3 h4 => ?_⟩
  · simp [database_connect, h1]
  · simp [database_connect, h1, h2]
  · simp [database_connect, h1, h2, h3]
  · simp [database_connect, h1, h2, h3, h4]
  · simp [database_connect, h1, h2, h3, h4]

/-- Witness for the amended C8, one concrete descriptor per dispatch rule. -/
theorem claim8_dispatch_amended_witness :
    database_connect "a.mbtiles" = some .sqlite ∧
    database_connect "host=h driver=postgres dbname=d" = some .postgres ∧
    database_connect "my:tiles" = some .mysql ∧
    database_connect "mongodb:tiles" = some .mongodb ∧
    database_connect "whatever" = none :=
  ⟨(claim8_dispatch_amended "a.mbtiles").1 (by decide),
   (claim8_dispatch_amended "host=h driver=postgres dbname=d").2.1 (by decide) (by decide),
   (claim8_dispatch_amended "my:tiles").2.2.1 (by decide) (by decide) (by decide),
   (claim8_dispatch_amended "mongodb:tiles").2.2.2.1 (by decide) (by decide) (by decide)
     (by decide),
   (claim8_dispatch_amended "whatever").2.2.2.2 (by decide) (by decide) (by decide)
     (by decide)⟩

/-- C9 (counterexample): the MongoDB backend's unsupported operations fail by
raising the bare string `"Not implemented"` (a `TypeError` on Python ≥ 2.6),
which is not `NotImplementedError`. -/
theorem claim9_counterexample :
    MBTilesMongoDB.updates 0 18 0 0 [] = .error (.raiseStr "Not implemented") ∧
    PyErr.raiseStr "Not implemented" ≠ PyErr.notImplementedError := by
  refine ⟨rfl, by decide⟩

/-- C6: `min_zoom = 0` and `max_zoom = 18` are no-bound sentinels — the zoom
conditions are simply not added to the query, so `tiles_count` and `tiles`
with these bounds restrict nothing, which on any store whose zoom levels lie
in the valid range 0–18 returns exactly what an explicit restriction to 0–18
would; a zero timestamp bound and a `None` scale likewise add no condition.
Stated for the SQLite relational backend and the MongoDB document backend. -/
theorem claim6_sentinel_bounds :
    (∀ (db : SQLiteDB) (min_timestamp max_timestamp : ℤ) (scale : Option ℤ),
        (∀ r ∈ db.map, 0 ≤ r.zoom_level ∧ r.zoom_level ≤ 18) →
        MBTilesSQLite.tiles_count 0 18 min_timestamp max_timestamp scale db
          = tiles_count_fullRange min_timestamp max_timestamp scale db) ∧
    (∀ db : SQLiteDB,
        MBTilesSQLite.tiles_count 0 18 0 0 none db
          = (db.map.filter fun r => r.tile_id != none).length) ∧
    (∀ db : SQLiteDB,
        MBTilesSQLite.tiles 0 18 0 0 none db
          = (tilesView db).map fun v =>
              (v.zoom_level, v.tile_column, v.tile_row, v.tile_scale, v.tile_data)) ∧
    (∀ docs : List MongoDoc,
        MBTilesMongoDB.tiles_count 0 18 0 0 none docs = docs.length) ∧
    (∀ docs : List MongoDoc, (∀ doc ∈ docs, 0 ≤ doc.z ∧ doc.z ≤ 18) →
        MBTilesMongoDB.tiles_count 0 18 0 0 none docs = mongo_count_fullRange docs) := by
  refine ⟨?_, ?_, ?_, ?_, ?_⟩
  · intro db min_timestamp max_timestamp scale hvalid
    unfold MBTilesSQLite.tiles_count tiles_count_fullRange
    congr 1
    refine List.filter_congr ?_
    intro r hr
    obtain ⟨h0, h18⟩ := hvalid r hr
    simp [h0, h18]
  · intro db
    rfl
  · intro db
    unfold MBTilesSQLite.tiles
    rw [List.filter_eq_self.mpr ?_]
    intro v hv
    simp [scaleTest]
  · intro docs
    unfold MBTilesMongoDB.tiles_count
    rw [List.filter_eq_self.mpr ?_]
    intro doc hdoc
    simp
  · intro docs hvalid
    unfold MBTilesMongoDB.tiles_count mongo_count_fullRange
    congr 1
    refine List.filter_congr ?_
    intro doc hdoc
    obtain ⟨h0, h18⟩ := hvalid doc hdoc
    simp [h0, h18]

/-- Witness for C6 at a concrete store of one present tile at zoom 3 plus an
expired coordinate. -/
theorem claim6_sentinel_bounds_witness :
    (∀ r ∈ ([⟨3, 1, 2, 1, some "A", 10⟩, ⟨4, 0, 0, 1, none, 12⟩] : List MapRow),
        0 ≤ r.zoom_level ∧ r.zoom_level ≤ 18) ∧
    MBTilesSQLite.tiles_count 0 18 0 0 none
        ⟨[⟨3, 1, 2, 1, some "A", 10⟩, ⟨4, 0, 0, 1, none, 12⟩], [⟨"A", "d"⟩]⟩
      = tiles_count_fullRange 0 0 none
          ⟨[⟨3, 1, 2, 1, some "A", 10⟩, ⟨4, 0, 0, 1, none, 12⟩], [⟨"A", "d"⟩]⟩ ∧
    MBTilesMongoDB.tiles_count 0 18 0 0 none [⟨3, none, 5, "d"⟩]
      = mongo_count_fullRange [⟨3, none, 5, "d"⟩] :=
  ⟨by decide,
   claim6_sentinel_bounds.1
     ⟨[⟨3, 1, 2, 1, some "A", 10⟩, ⟨4, 0, 0, 1, none, 12⟩], [⟨"A", "d"⟩]⟩ 0 0 none
     (by decide),
   claim6_sentinel_bounds.2.2.2.2 [⟨3, none, 5, "d"⟩] (by decide)⟩

/-- C5: `mbtiles_setup` is idempotent.  Whenever a first call succeeds,
a second call on the resulting schema state succeeds as well, produces the
identical schema-object state (tables, indexes, `tiles` view, procedures),
and leaves the probed capabilities `is_compacted()` and `has_scale()`
unchanged — for the SQLite backend and for the Postgres backend. -/
theorem claim5_setup_idempotent :
    (∀ s s1 : SQLiteSchema, MBTilesSQLite.mbtiles_setup s = some s1 →
        ∃ s2, MBTilesSQLite.mbtiles_setup s1 = some s2 ∧ s2 = s1 ∧
          MBTilesSQLite.is_compacted s2 = MBTilesSQLite.is_compacted s1 ∧
          MBTilesSQLite.has_scale s2 = MBTilesSQLite.has_scale s1) ∧
    (∀ p p1 : PgSchema, MBTilesPostgres.mbtiles_setup p = some p1 →
        ∃ p2, MBTilesPostgres.mbtiles_setup p1 = some p2 ∧ p2 = p1 ∧
          MBTilesPostgres.is_compacted p2 = MBTilesPostgres.is_compacted p1 ∧
          MBTilesPostgres.has_scale p2 = MBTilesPostgres.has_scale p1) := by
  constructor
  · intro s s1 h
    obtain ⟨a, b, c, d, e, f, g, v, i, j⟩ := s
    cases d <;> cases b <;> cases i <;>
      simp [MBTilesSQLite.mbtiles_setup] at h <;> subst h <;>
      exact ⟨_, rfl, rfl, rfl, rfl⟩
  · intro p p1 h
    obtain ⟨a, b, c, d, e, f, g, v, q1, q2, i⟩ := p
    cases d <;> cases b <;> cases i <;> rcases v with _ | _ | _ <;>
      cases q1 <;> cases q2 <;>
      simp [MBTilesPostgres.mbtiles_setup] at h <;> subst h <;>
      exact ⟨_, rfl, rfl, rfl, rfl⟩

/-- Witness for C5: a first `mbtiles_setup` on a fresh (empty) schema
succeeds on each backend, and the theorem yields the idempotent second
call. -/
theorem claim5_setup_idempotent_witness :
    (MBTilesSQLite.mbtiles_setup ⟨false, false, false, false, false, false, false,
        false, false, false⟩
      = some ⟨true, true, true, false, true, true, true, true, true, true⟩) ∧
    (∃ s2, MBTilesSQLite.mbtiles_setup
        ⟨true, true, true, false, true, true, true, true, true, true⟩ = some s2 ∧
      s2 = ⟨true, true, true, false, true, true, true, true, true, true⟩ ∧
      MBTilesSQLite.is_compacted s2
        = MBTilesSQLite.is_compacted ⟨true, true, true, false, true, true, true, true,
            true, true⟩ ∧
      MBTilesSQLite.has_scale s2
        = MBTilesSQLite.has_scale ⟨true, true, true, false, true, true, true, true,
            true, true⟩) ∧
    (MBTilesPostgres.mbtiles_setup ⟨false, false, false, false, false, none, false,
        none, false, false, false⟩
      = some ⟨true, true, true, false, true, some true, true, some true, true, false,
          true⟩) ∧
    (∃ p2, MBTilesPostgres.mbtiles_setup
        ⟨true, true, true, false, true, some true, true, some true, true, false, true⟩
          = some p2 ∧
      p2 = ⟨true, true, true, false, true, some true, true, some true, true, false,
          true⟩ ∧
      MBTilesPostgres.is_compacted p2
        = MBTilesPostgres.is_compacted ⟨true, true, true, false, true, some true, true,
            some true, true, false, true⟩ ∧
      MBTilesPostgres.has_scale p2
        = MBTilesPostgres.has_scale ⟨true, true, true, false, true, some true, true,
            some true, true, false, true⟩) :=
  ⟨by decide,
   claim5_setup_idempotent.1 ⟨false, false, false, false, false, false, false, false,
     false, false⟩ ⟨true, true, true, false, true, true, true, true, true, true⟩
     (by decide),
   by decide,
   claim5_setup_idempotent.2 ⟨false, false, false, false, false, none, false, none,
     false, false, false⟩ ⟨true, true, true, false, true, some true, true, some true,
     true, false, true⟩ (by decide)⟩

/-- C9 (amended): on the MongoDB backend, every call to
`columns_and_rows_for_zoom_level`, `columns_for_zoom_level_and_row`,
`bounding_box_for_zoom_level`, `updates`, `updates_count` or `delete_tiles`
fails with a raised exception surfaced to the caller — but it is the raised
string `"Not implemented"` (a `TypeError` on Python ≥ 2.6), not
`NotImplementedError`. -/
theorem claim9_unsupported_amended (zoom_level row min_zoom max_zoom min_timestamp
    max_timestamp : ℤ) (scale : Option ℤ) (docs : List MongoDoc) :
    MBTilesMongoDB.columns_and_rows_for_zoom_level zoom_level scale docs
        = .error (.raiseStr "Not implemented") ∧
    MBTilesMongoDB.columns_for_zoom_level_and_row zoom_level row scale docs
        = .error (.raiseStr "Not implemented") ∧
    MBTilesMongoDB.bounding_box_for_zoom_level zoom_level scale docs
        = .error (.raiseStr "Not implemented") ∧
    MBTilesMongoDB.updates min_zoom max_zoom min_timestamp max_timestamp docs
        = .error (.raiseStr "Not implemented") ∧
    MBTilesMongoDB.updates_count min_zoom max_zoom min_timestamp max_timestamp docs
        = .error (.raiseStr "Not implemented") ∧
    MBTilesMongoDB.delete_tiles min_zoom max_zoom min_timestamp max_timestamp scale docs
        = .error (.raiseStr "Not implemented") :=
  ⟨rfl, rfl, rfl, rfl, rfl, rfl⟩

